import Mathlib

/-
Verification model of the session orchestration core in `src/main.py`:
the LINE webhook command dispatcher (`handle_text_message`,
`handle_audio_message`), the per-user model bindings (`model_management`),
the credential store (`storage`) and the conversation memory (`memory`).

Backend capability calls (token validation, chat completion, image
generation, transcript retrieval, summarization, audio transcription,
credential persistence) are external collaborators; they are modelled as an
oracle `Env` whose fields give the outcome of each call, mirroring the
`(is_successful, response, error_message)` triples (or raised exceptions)
of the source. Python string operations on code points (`strip`, slicing,
`startswith`) are modelled over `List Char` so that everything evaluates.
-/

set_option autoImplicit false

/-- Role-tagged message as stored in the conversation memory
(`{'role': ..., 'content': ...}` entries handed to `chat_completions`). -/
structure Msg where
  role : String
  content : String
deriving DecidableEq

/-- An `OpenAIModel` instance; the orchestration core only ever constructs
it from the api key (`OpenAIModel(api_key=api_key)`, `src/main.py` line 60). -/
structure Model where
  apiKey : String
deriving DecidableEq

/-- The `(is_successful, response, error_message)` triple returned by the
backend capability calls of `src/models.py` and the reader services. -/
structure TriState (α : Type) where
  isSuccessful : Bool
  response : α
  errorMessage : String
deriving DecidableEq

/-- Outbound reply: `TextSendMessage` or `ImageSendMessage` (the source sets
the original and the preview url to the same string, line 86). -/
inductive Reply where
  | textMessage (text : String)
  | imageMessage (url : String)
deriving DecidableEq

/-- Python exceptions that the handlers' try blocks can raise: the explicit
`raise ValueError`, the `KeyError` of `model_management[user_id]`, and any
other `Exception` (the `raise Exception(error_message)` calls and failures
escaping backend calls such as `storage.save`). -/
inductive PyExc where
  | valueError (msg : String)
  | keyError (key : String)
  | otherExc (msg : String)
deriving DecidableEq

abbrev UserId := String

/-- Python `s.startswith(p)`: code-point prefix test. -/
def pyStartsWith (s p : String) : Bool :=
  p.data.isPrefixOf s.data

/-- Python `s.strip()`: drop leading and trailing whitespace code points. -/
def pyStrip (s : String) : String :=
  ⟨((s.data.dropWhile Char.isWhitespace).reverse.dropWhile Char.isWhitespace).reverse⟩

/-- Python `s[n:]`: drop the first `n` code points. -/
def pyDrop (s : String) (n : Nat) : String :=
  ⟨s.data.drop n⟩

/-- Python dictionary read, `d.get(k)` (and `d[k]`, which raises `KeyError`
on `none`). -/
def dictLookup {α : Type} (d : List (UserId × α)) (k : UserId) : Option α :=
  match d with
  | [] => none
  | (k1, v1) :: rest => if k1 = k then some v1 else dictLookup rest k

/-- Python dictionary write, `d[k] = v`. -/
def dictInsert {α : Type} (d : List (UserId × α)) (k : UserId) (v : α) :
    List (UserId × α) :=
  match d with
  | [] => [(k, v)]
  | (k1, v1) :: rest =>
    if k1 = k then (k, v) :: rest else (k1, v1) :: dictInsert rest k v

/-- Modelled from the spec: the repository's `Memory` class (`src/memory.py`)
is not included under `src/`; §3 and §4.2 of the spec describe it as a
per-user bounded ordered log of role-tagged messages plus a mutable system
instruction with a process-wide default, keyed by user id, created fresh on
first access. `memoryMessageCount` is the retained-exchange count `K`
(`memory_message_count=2` at line 35 of `src/main.py`). -/
structure MemoryState where
  systemMessage : String
  memoryMessageCount : Nat
  storage : List (UserId × List Msg)
  systemOverrides : List (UserId × String)
deriving DecidableEq

/-- The stored history of a user (empty on first access). -/
def MemoryState.histOf (m : MemoryState) (u : UserId) : List Msg :=
  (dictLookup m.storage u).getD []

/-- The system instruction of a user (the process-wide default until
`change_system_message` rebinds it). -/
def MemoryState.sysOf (m : MemoryState) (u : UserId) : String :=
  (dictLookup m.systemOverrides u).getD m.systemMessage

/-- Modelled from the spec: `append` enforces the `2K` retention invariant
by dropping the oldest pair once the bound is exceeded (§4.2). -/
def dropOldest (K : Nat) (l : List Msg) : List Msg :=
  if 2 * K < l.length then l.drop 2 else l

/-- Modelled from the spec: `append(userId, role, content)` adds one entry
at the newest end and trims the oldest pair when the `2K` bound is
exceeded (§4.2). -/
def MemoryState.append (m : MemoryState) (u : UserId) (role content : String) :
    MemoryState :=
  let h := dropOldest m.memoryMessageCount (m.histOf u ++ [⟨role, content⟩])
  { m with storage := dictInsert m.storage u h }

/-- Modelled from the spec: `get(userId)` returns the history oldest-first
with the system instruction synthesized as the first element (§4.2). -/
def MemoryState.get (m : MemoryState) (u : UserId) : List Msg :=
  ⟨"system", m.sysOf u⟩ :: m.histOf u

/-- Modelled from the spec: `remove(userId)` (the `clear` operation)
empties the user's history (§4.2). -/
def MemoryState.remove (m : MemoryState) (u : UserId) : MemoryState :=
  { m with storage := dictInsert m.storage u [] }

/-- Modelled from the spec: `change_system_message(userId, text)` rebinds
the user's system instruction (§4.2). -/
def MemoryState.change_system_message (m : MemoryState) (u : UserId)
    (text : String) : MemoryState :=
  { m with systemOverrides := dictInsert m.systemOverrides u text }

/-- The mutable module-level state of `src/main.py`: `memory` (line 35),
`model_management` (line 36), and the contents of the durable credential
store written by `storage.save` (line 65). -/
structure BotState where
  memory : MemoryState
  modelManagement : List (UserId × Model)
  storageDB : List (UserId × String)
deriving DecidableEq

/-- Oracle for the external backend calls made by the handlers. Each field
gives the outcome the corresponding call would produce on this event;
`Except String` results model calls that raise (carrying `str(e)`). -/
structure Env where
  checkTokenValid : String → Bool
  saveResult : UserId → String → Except String Unit
  imageGenerations : String → String → TriState String
  getUrlFromText : String → Option String
  retrieveVideoId : String → Option String
  getTranscriptChunks : String → TriState (List String)
  youtubeSummarize : String → List String → TriState String
  getContentFromUrl : String → List String
  websiteSummarize : String → List String → TriState String
  chatCompletions : String → List Msg → String → TriState String
  audioTranscriptions : String → String → String → Except String String
  getRoleAndContent : String → String × String

/-- `OPENAI_MODEL_ENGINE` default (line 26). -/
def DEFAULT_MODEL : String := "gpt-3.5-turbo"

/-- `SYSTEM_MESSAGE` default (line 29). -/
def DEFAULT_SYSTEM_MESSAGE : String :=
  "你是一位非常有耐心又擅長教學的老師，懂得用比喻幫助學生理解，尤其擅長處理初學者的問題。"

/-- The static `/指令說明` reply (line 69). -/
def helpMsg : String :=
  "指令：\n/註冊 + API Token\n👉 API Token 請先到 https://platform.openai.com/ 註冊登入後取得\n\n/系統訊息 + Prompt\n👉 Prompt 可以命令機器人扮演某個角色\n\n/清除\n👉 清除歷史訊息\n\n/圖像 + Prompt\n👉 以文字生成圖像\n\n語音輸入\n👉 語音轉文字後由 GPT 回答\n\n其他輸入\n👉 由 GPT 回答"

/-- The command surface of the dispatcher. -/
inductive Command where
  | register
  | help
  | system
  | clear
  | image
  | freeText
deriving DecidableEq

/-- The `if`/`elif` prefix chain of `handle_text_message`
(lines 58, 68, 71, 75, 79, 89), applied to the stripped text. -/
def classifySource (text : String) : Command :=
  if pyStartsWith text "/註冊" then Command.register
  else if pyStartsWith text "/指令說明" then Command.help
  else if pyStartsWith text "/系統訊息" then Command.system
  else if pyStartsWith text "/清除" then Command.clear
  else if pyStartsWith text "/圖像" then Command.image
  else Command.freeText

/-- The command prefixes in the precedence order the spec states. -/
def commandOrder : List (Command × String) :=
  [(Command.register, "/註冊"), (Command.help, "/指令說明"),
   (Command.system, "/系統訊息"), (Command.clear, "/清除"),
   (Command.image, "/圖像")]

/-- Specification-side classifier: the first prefix of `commandOrder` that
matches the text, else the default free-text path. -/
def firstMatching (text : String) : Command :=
  ((commandOrder.find? fun p => pyStartsWith text p.2).map Prod.fst).getD
    Command.freeText

/-- Lines 58 to 66: the `/註冊` branch. The `3` is the code-point length of
the prefix, matching `text[3:]`. The binding is installed before
`storage.save` runs; a failing save therefore raises with the binding
already replaced. -/
def registerBranch (env : Env) (st : BotState) (userId text : String) :
    Except (BotState × PyExc) (BotState × Reply) :=
  if env.checkTokenValid (pyStrip (pyDrop text 3)) = false then
    Except.error (st, PyExc.valueError "Invalid API token")
  else
    match env.saveResult userId (pyStrip (pyDrop text 3)) with
    | Except.error m =>
      Except.error
        ({ st with modelManagement :=
            dictInsert st.modelManagement userId ⟨pyStrip (pyDrop text 3)⟩ },
         PyExc.otherExc m)
    | Except.ok _ =>
      Except.ok
        ({ st with
            modelManagement :=
              dictInsert st.modelManagement userId ⟨pyStrip (pyDrop text 3)⟩,
            storageDB := dictInsert st.storageDB userId (pyStrip (pyDrop text 3)) },
         Reply.textMessage "✅ Token 有效，註冊成功")

/-- Lines 71 to 73: the `/系統訊息` branch (`text[5:]`, five code points). -/
def systemBranch (st : BotState) (userId text : String) :
    Except (BotState × PyExc) (BotState × Reply) :=
  Except.ok
    ({ st with memory :=
        st.memory.change_system_message userId (pyStrip (pyDrop text 5)) },
     Reply.textMessage "✅ 系統訊息已更新")

/-- Lines 75 to 77: the `/清除` branch. -/
def clearBranch (st : BotState) (userId : String) :
    Except (BotState × PyExc) (BotState × Reply) :=
  Except.ok
    ({ st with memory := st.memory.remove userId },
     Reply.textMessage "🧹 歷史訊息清除成功")

/-- Lines 79 to 87: the `/圖像` branch. The prompt is appended as a user
turn before `model_management[user_id]` is read, so an unregistered user's
`KeyError` is raised with the append already applied. -/
def imageBranch (env : Env) (st : BotState) (userId text : String) :
    Except (BotState × PyExc) (BotState × Reply) :=
  let st1 :=
    { st with memory := st.memory.append userId "user" (pyStrip (pyDrop text 3)) }
  match dictLookup st1.modelManagement userId with
  | none => Except.error (st1, PyExc.keyError userId)
  | some model =>
    let r := env.imageGenerations model.apiKey (pyStrip (pyDrop text 3))
    if r.isSuccessful = false then
      Except.error (st1, PyExc.otherExc r.errorMessage)
    else
      Except.ok
        ({ st1 with memory := st1.memory.append userId "assistant" r.response },
         Reply.imageMessage r.response)

/-- Lines 109 to 114: the shared tail of the default branch — check the
summarizer or chat result, extract role and content, append the assistant
turn and build the text reply. -/
def finishCompletion (env : Env) (st : BotState) (userId : String)
    (r : TriState String) : Except (BotState × PyExc) (BotState × Reply) :=
  if r.isSuccessful = false then
    Except.error (st, PyExc.otherExc r.errorMessage)
  else
    let rc := env.getRoleAndContent r.response
    Except.ok
      ({ st with memory := st.memory.append userId rc.1 rc.2 },
       Reply.textMessage rc.2)

/-- Lines 89 to 114: the default free-text branch. The binding is read
(possible `KeyError`) before the user turn is appended; then the content
source router picks transcript summarization, page summarization or direct
chat completion over `memory.get(user_id)`. -/
def defaultBranch (env : Env) (st : BotState) (userId text : String) :
    Except (BotState × PyExc) (BotState × Reply) :=
  match dictLookup st.modelManagement userId with
  | none => Except.error (st, PyExc.keyError userId)
  | some userModel =>
    let st1 := { st with memory := st.memory.append userId "user" text }
    match env.getUrlFromText text with
    | some url =>
      match env.retrieveVideoId text with
      | some vid =>
        let t := env.getTranscriptChunks vid
        if t.isSuccessful = false then
          Except.error (st1, PyExc.otherExc t.errorMessage)
        else
          finishCompletion env st1 userId
            (env.youtubeSummarize userModel.apiKey t.response)
      | none =>
        let chunks := env.getContentFromUrl url
        if chunks.isEmpty then
          Except.error (st1, PyExc.otherExc "無法撈取網站內容")
        else
          finishCompletion env st1 userId
            (env.websiteSummarize userModel.apiKey chunks)
    | none =>
      finishCompletion env st1 userId
        (env.chatCompletions userModel.apiKey (st1.memory.get userId) DEFAULT_MODEL)

/-- Lines 57 to 114: the try block of `handle_text_message`, dispatching on
the stripped text (line 54). -/
def tryBody (env : Env) (st : BotState) (userId rawText : String) :
    Except (BotState × PyExc) (BotState × Reply) :=
  match classifySource (pyStrip rawText) with
  | Command.register => registerBranch env st userId (pyStrip rawText)
  | Command.help => Except.ok (st, Reply.textMessage helpMsg)
  | Command.system => systemBranch st userId (pyStrip rawText)
  | Command.clear => clearBranch st userId
  | Command.image => imageBranch env st userId (pyStrip rawText)
  | Command.freeText => defaultBranch env st userId (pyStrip rawText)

/-- Lines 116 to 127: the except clauses of `handle_text_message`.
`except ValueError` and `except KeyError` reply without touching state; the
final `except Exception` first clears the user's history (line 121) and
then classifies the message by its leading text. -/
def exceptClauses (userId : UserId)
    (r : Except (BotState × PyExc) (BotState × Reply)) : BotState × Reply :=
  match r with
  | Except.ok p => p
  | Except.error (st, PyExc.valueError _) =>
    (st, Reply.textMessage "❌ Token 無效，請重新註冊，格式為 /註冊 sk-xxxxx")
  | Except.error (st, PyExc.keyError _) =>
    (st, Reply.textMessage "⚠️ 請先註冊 Token，格式為 /註冊 sk-xxxxx")
  | Except.error (st, PyExc.otherExc m) =>
    let st1 := { st with memory := st.memory.remove userId }
    if pyStartsWith m "Incorrect API key provided" then
      (st1, Reply.textMessage "❌ API Token 錯誤，請重新註冊。")
    else if pyStartsWith m "That model is currently overloaded" then
      (st1, Reply.textMessage "⚠️ 模型過載，請稍後再試")
    else
      (st1, Reply.textMessage ("⚠️ 發生錯誤：" ++ m))

/-- Lines 51 to 129: the text event handler, always producing exactly one
reply. -/
def handle_text_message (env : Env) (st : BotState) (userId rawText : String) :
    BotState × Reply :=
  exceptClauses userId (tryBody env st userId rawText)

/-- Python `str(e)` for the exceptions of this model. -/
def pyStr : PyExc → String
  | PyExc.valueError m => m
  | PyExc.keyError k => "'" ++ k ++ "'"
  | PyExc.otherExc m => m

/-- Lines 140 to 150: the try block of `handle_audio_message`. A missing
binding raises `ValueError('Invalid API token')`; otherwise the transcript
is appended as a user turn and chat completion runs over
`memory.get(user_id)`. -/
def audioTryBody (env : Env) (st : BotState) (userId audioPath : String) :
    Except (BotState × PyExc) (BotState × Reply) :=
  match dictLookup st.modelManagement userId with
  | none => Except.error (st, PyExc.valueError "Invalid API token")
  | some userModel =>
    match env.audioTranscriptions userModel.apiKey audioPath "whisper-1" with
    | Except.error m => Except.error (st, PyExc.otherExc m)
    | Except.ok transcript =>
      let st1 := { st with memory := st.memory.append userId "user" transcript }
      let r := env.chatCompletions userModel.apiKey (st1.memory.get userId)
        DEFAULT_MODEL
      if r.isSuccessful = false then
        Except.error (st1, PyExc.otherExc r.errorMessage)
      else
        let rc := env.getRoleAndContent r.response
        Except.ok
          ({ st1 with memory := st1.memory.append userId rc.1 rc.2 },
           Reply.textMessage rc.2)

/-- Lines 131 to 155: the audio event handler. Its single `except Exception`
clause replies with the prefixed error text and, unlike the text handler,
does not clear the user's history. -/
def handle_audio_message (env : Env) (st : BotState) (userId audioPath : String) :
    BotState × Reply :=
  match audioTryBody env st userId audioPath with
  | Except.ok p => p
  | Except.error (st1, e) => (st1, Reply.textMessage ("⚠️ " ++ pyStr e))

/-- A fresh memory with default system instruction and bound `K`. -/
def initMemory (sys : String) (K : Nat) : MemoryState :=
  ⟨sys, K, [], []⟩

/-- The module-level state at process start with no registered users. -/
def initialState : BotState :=
  ⟨initMemory DEFAULT_SYSTEM_MESSAGE 2, [], []⟩

/-- Replay a sequence of `append` calls for one user. -/
def appendAll (m : MemoryState) (u : UserId) (msgs : List Msg) : MemoryState :=
  msgs.foldl (fun acc p => acc.append u p.role p.content) m

/-- A concrete oracle in which every backend call succeeds. -/
def envBase : Env :=
  { checkTokenValid := fun _ => true
    saveResult := fun _ _ => Except.ok ()
    imageGenerations := fun _ p => ⟨true, "http://img/" ++ p, ""⟩
    getUrlFromText := fun _ => none
    retrieveVideoId := fun _ => none
    getTranscriptChunks := fun _ => ⟨true, [], ""⟩
    youtubeSummarize := fun _ _ => ⟨true, "sum", ""⟩
    getContentFromUrl := fun _ => []
    websiteSummarize := fun _ _ => ⟨true, "sum", ""⟩
    chatCompletions := fun _ _ _ => ⟨true, "ok", ""⟩
    audioTranscriptions := fun _ _ _ => Except.ok "hello"
    getRoleAndContent := fun s => ("assistant", s) }

/-- A concrete state with user `u` registered and two history entries. -/
def stReg : BotState :=
  { memory := ⟨"S", 2, [("u", [⟨"user", "x"⟩, ⟨"assistant", "y"⟩])], []⟩
    modelManagement := [("u", ⟨"sk-k"⟩)]
    storageDB := [("u", "sk-k")] }

/-- Oracle whose chat completion reports the backend-overload error. -/
def envOverload : Env :=
  { envBase with chatCompletions := fun _ _ _ =>
      ⟨false, "", "That model is currently overloaded with other requests"⟩ }

/-- Oracle whose chat completion fails with an unclassified error. -/
def envBoom : Env :=
  { envBase with chatCompletions := fun _ _ _ => ⟨false, "", "boom"⟩ }

/-- Oracle that recognizes a video URL whose transcript fetch fails. -/
def envYt : Env :=
  { envBase with
      getUrlFromText := fun _ => some "https://youtu.be/abc"
      retrieveVideoId := fun _ => some "abc"
      getTranscriptChunks := fun _ => ⟨false, [], "no transcript"⟩ }

/-- Oracle whose token validation rejects every token. -/
def envInvalid : Env :=
  { envBase with checkTokenValid := fun _ => false }

/-- Oracle whose token validation succeeds but whose credential-store save
raises. -/
def envSaveFail : Env :=
  { envBase with saveResult := fun _ _ => Except.error "boom-save" }

/-- `stReg` after the free-text user turn "hi" was appended. -/
def stE1 : BotState :=
  { stReg with memory := stReg.memory.append "u" "user" "hi" }

/-- `stReg` after the audio transcript "hello" was appended as a user turn. -/
def stA1 : BotState :=
  { stReg with memory := stReg.memory.append "u" "user" "hello" }

/-- `stReg` after the video URL text was appended as a user turn. -/
def stY1 : BotState :=
  { stReg with memory := stReg.memory.append "u" "user" "https://youtu.be/abc" }

/-- Reading back the key just written returns the written value. -/
theorem dictLookup_insert_self {α : Type} (d : List (UserId × α)) (k : UserId)
    (v : α) : dictLookup (dictInsert d k v) k = some v := by
  induction d with
  | nil => simp [dictInsert, dictLookup]
  | cons p rest ih =>
    obtain ⟨k1, v1⟩ := p
    by_cases h : k1 = k
    · simp [dictInsert, dictLookup, h]
    · simp [dictInsert, dictLookup, h, ih]

/-- History after an `append`, in terms of `dropOldest`. -/
theorem histOf_append (m : MemoryState) (u : UserId) (r c : String) :
    (m.append u r c).histOf u =
      dropOldest m.memoryMessageCount (m.histOf u ++ [⟨r, c⟩]) := by
  simp [MemoryState.append, MemoryState.histOf, dictLookup_insert_self]

/-- History after a `remove` is empty. -/
theorem histOf_remove (m : MemoryState) (u : UserId) :
    (m.remove u).histOf u = [] := by
  simp [MemoryState.remove, MemoryState.histOf, dictLookup_insert_self]

/-- One trimmed append preserves the `2K` bound. -/
theorem dropOldest_length (K : Nat) (l : List Msg) (x : Msg)
    (h : l.length ≤ 2 * K) : (dropOldest K (l ++ [x])).length ≤ 2 * K := by
  unfold dropOldest
  split
  · simp only [List.length_drop, List.length_append, List.length_cons,
      List.length_nil]
    omega
  · next hcond =>
    simp only [List.length_append, List.length_cons, List.length_nil] at hcond ⊢
    omega

/-- One trimmed append maps a suffix of the transcript so far to a suffix of
the extended transcript. -/
theorem dropOldest_suffix_append (K : Nat) (l pre : List Msg) (x : Msg)
    (h : List.IsSuffix l pre) :
    List.IsSuffix (dropOldest K (l ++ [x])) (pre ++ [x]) := by
  have h1 : List.IsSuffix (l ++ [x]) (pre ++ [x]) := by
    obtain ⟨t, ht⟩ := h
    exact ⟨t, by rw [← List.append_assoc, ht]⟩
  unfold dropOldest
  split
  · exact List.IsSuffix.trans (List.drop_suffix 2 (l ++ [x])) h1
  · exact h1

/-- Replaying appends keeps the history a suffix of the full transcript and
within the `2K` bound. -/
theorem appendAll_inv (u : UserId) (msgs : List Msg) :
    ∀ (m : MemoryState) (pre : List Msg),
      List.IsSuffix (m.histOf u) pre →
      (m.histOf u).length ≤ 2 * m.memoryMessageCount →
      List.IsSuffix ((appendAll m u msgs).histOf u) (pre ++ msgs) ∧
        ((appendAll m u msgs).histOf u).length ≤ 2 * m.memoryMessageCount := by
  induction msgs with
  | nil =>
    intro m pre hs hl
    simpa [appendAll] using ⟨hs, hl⟩
  | cons x rest ih =>
    intro m pre hs hl
    have hstep : appendAll m u (x :: rest) =
        appendAll (m.append u x.role x.content) u rest := rfl
    have h1 : (m.append u x.role x.content).histOf u =
        dropOldest m.memoryMessageCount (m.histOf u ++ [x]) :=
      histOf_append m u x.role x.content
    have hK : (m.append u x.role x.content).memoryMessageCount =
        m.memoryMessageCount := rfl
    have hs1 : List.IsSuffix ((m.append u x.role x.content).histOf u)
        (pre ++ [x]) := by
      rw [h1]
      exact dropOldest_suffix_append m.memoryMessageCount (m.histOf u) pre x hs
    have hl1 : ((m.append u x.role x.content).histOf u).length ≤
        2 * (m.append u x.role x.content).memoryMessageCount := by
      rw [h1, hK]
      exact dropOldest_length m.memoryMessageCount (m.histOf u) x hl
    have h2 := ih (m.append u x.role x.content) (pre ++ [x]) hs1 hl1
    rw [hK] at h2
    rw [hstep]
    exact ⟨by simpa [List.append_assoc] using h2.1, h2.2⟩

/-- C6: for all sequences of `append` calls on one user with
retained-exchange count `K`, `get` returns at most `2K + 1` entries
(including the synthesized system entry), the retained entries are a suffix
of the appended sequence (the most recent ones, in original relative
order), and on the `K = 2` example the oldest pair is evicted exactly as
the spec's scenario requires. -/
theorem memory_retention_invariant :
    (∀ (K : Nat) (sys : String) (u : UserId) (msgs : List Msg),
      ((appendAll (initMemory sys K) u msgs).get u).length ≤ 2 * K + 1 ∧
        List.IsSuffix ((appendAll (initMemory sys K) u msgs).histOf u) msgs) ∧
    (appendAll (initMemory "S" 2) "u"
        [⟨"user", "a"⟩, ⟨"assistant", "b"⟩, ⟨"user", "c"⟩, ⟨"assistant", "d"⟩,
          ⟨"user", "e"⟩]).get "u" =
      [⟨"system", "S"⟩, ⟨"user", "c"⟩, ⟨"assistant", "d"⟩, ⟨"user", "e"⟩] := by
  constructor
  · intro K sys u msgs
    have h0 : (initMemory sys K).histOf u = [] := rfl
    have h := appendAll_inv u msgs (initMemory sys K) []
      (by rw [h0]) (by rw [h0]; simp)
    obtain ⟨hs, hl⟩ := h
    refine ⟨?_, by simpa using hs⟩
    have hg : ((appendAll (initMemory sys K) u msgs).get u).length =
        ((appendAll (initMemory sys K) u msgs).histOf u).length + 1 := by
      simp [MemoryState.get]
    have hK : (initMemory sys K).memoryMessageCount = K := rfl
    rw [hK] at hl
    omega
  · decide

/-- C7: the text dispatcher classifies the whitespace-stripped text by the
first matching prefix in the precedence order register, help,
system-instruction, clear, image, then the default free-text path, and
`tryBody` handles the event according to that classification. -/
theorem command_precedence_first_match :
    (∀ text : String, classifySource text = firstMatching text) ∧
    (∀ (env : Env) (st : BotState) (u raw : String),
      tryBody env st u raw =
        match firstMatching (pyStrip raw) with
        | Command.register => registerBranch env st u (pyStrip raw)
        | Command.help => Except.ok (st, Reply.textMessage helpMsg)
        | Command.system => systemBranch st u (pyStrip raw)
        | Command.clear => clearBranch st u
        | Command.image => imageBranch env st u (pyStrip raw)
        | Command.freeText => defaultBranch env st u (pyStrip raw)) := by
  have h : ∀ text : String, classifySource text = firstMatching text := by
    intro text
    cases h1 : pyStartsWith text "/註冊" <;>
    cases h2 : pyStartsWith text "/指令說明" <;>
    cases h3 : pyStartsWith text "/系統訊息" <;>
    cases h4 : pyStartsWith text "/清除" <;>
    cases h5 : pyStartsWith text "/圖像" <;>
      simp [classifySource, firstMatching, commandOrder, List.find?,
        h1, h2, h3, h4, h5]
  refine ⟨h, fun env st u raw => ?_⟩
  unfold tryBody
  rw [h (pyStrip raw)]

/-- C8: for every inbound event, text or audio, and every backend outcome,
each handler returns exactly one state-and-reply pair: every exception its
try block can raise is consumed by the except clauses of the model, so
nothing propagates past the handler boundary. -/
theorem dispatcher_single_reply (env : Env) (st : BotState)
    (u raw path : String) :
    (∃! p : BotState × Reply, handle_text_message env st u raw = p) ∧
    (∃! p : BotState × Reply, handle_audio_message env st u path = p) :=
  ⟨⟨handle_text_message env st u raw, rfl, fun _ hy => hy.symm⟩,
   ⟨handle_audio_message env st u path, rfl, fun _ hy => hy.symm⟩⟩

/-- C5: a `/註冊` command whose token fails backend validation replies with
the invalid-token message and returns the state completely unchanged: the
prior binding, the credential store and the history are all untouched. -/
theorem register_invalid_token_no_mutation (env : Env) (st : BotState)
    (u raw : String)
    (hcls : classifySource (pyStrip raw) = Command.register)
    (hv : env.checkTokenValid (pyStrip (pyDrop (pyStrip raw) 3)) = false) :
    handle_text_message env st u raw =
      (st, Reply.textMessage "❌ Token 無效，請重新註冊，格式為 /註冊 sk-xxxxx") := by
  simp [handle_text_message, tryBody, hcls, registerBranch, hv, exceptClauses]

/-- Witness for C5 at a concrete rejected registration. -/
theorem register_invalid_token_no_mutation_w :
    handle_text_message envInvalid initialState "u" "/註冊 sk-bad" =
      (initialState,
       Reply.textMessage "❌ Token 無效，請重新註冊，格式為 /註冊 sk-xxxxx") :=
  register_invalid_token_no_mutation envInvalid initialState "u" "/註冊 sk-bad"
    (by decide) (by decide)

/-- C10: an audio event from a user with no model binding replies with the
literal `⚠️ Invalid API token` — which differs from the prompt-to-register
message of the text path — and leaves the state unchanged. -/
theorem audio_unregistered_literal_reply (env : Env) (st : BotState)
    (u path : String) (hb : dictLookup st.modelManagement u = none) :
    handle_audio_message env st u path =
      (st, Reply.textMessage "⚠️ Invalid API token") ∧
    Reply.textMessage "⚠️ Invalid API token" ≠
      Reply.textMessage "⚠️ 請先註冊 Token，格式為 /註冊 sk-xxxxx" := by
  constructor
  · simp [handle_audio_message, audioTryBody, hb, pyStr]
  · decide

/-- Witness for C10 at a concrete unregistered audio event. -/
theorem audio_unregistered_literal_reply_w :
    handle_audio_message envBase initialState "u" "p.m4a" =
      (initialState, Reply.textMessage "⚠️ Invalid API token") :=
  (audio_unregistered_literal_reply envBase initialState "u" "p.m4a"
    (by decide)).1

/-- C1 counterexample: a registered user's free text hitting a
backend-overload failure gets the overload message, but the history — which
held two entries before the event — is empty afterwards, so the event did
clear the history, contrary to the claim. -/
theorem anticipated_failure_no_clear_cex :
    (handle_text_message envOverload stReg "u" "hi").2 =
      Reply.textMessage "⚠️ 模型過載，請稍後再試" ∧
    (handle_text_message envOverload stReg "u" "hi").1.memory.histOf "u" = [] ∧
    stReg.memory.histOf "u" = [⟨"user", "x"⟩, ⟨"assistant", "y"⟩] := by
  decide

/-- C1 (amended): every anticipated backend failure surfacing as a raised
`Exception` — image-generation failure, overload, invalid credential —
produces the corresponding user-facing message, but only after the generic
handler has cleared the user's entire history. -/
theorem anticipated_failure_reply_and_clear (env : Env) (st st1 : BotState)
    (u raw m : String)
    (h : tryBody env st u raw = Except.error (st1, PyExc.otherExc m)) :
    handle_text_message env st u raw =
      ({ st1 with memory := st1.memory.remove u },
       if pyStartsWith m "Incorrect API key provided" = true then
         Reply.textMessage "❌ API Token 錯誤，請重新註冊。"
       else if pyStartsWith m "That model is currently overloaded" = true then
         Reply.textMessage "⚠️ 模型過載，請稍後再試"
       else Reply.textMessage ("⚠️ 發生錯誤：" ++ m)) ∧
    ({ st1 with memory := st1.memory.remove u }).memory.histOf u = [] := by
  refine ⟨?_, histOf_remove st1.memory u⟩
  simp only [handle_text_message, h, exceptClauses]
  cases h1 : pyStartsWith m "Incorrect API key provided" <;>
  cases h2 : pyStartsWith m "That model is currently overloaded" <;>
    simp [h1, h2]

/-- Witness for C1 (amended) at a concrete overload failure. -/
theorem anticipated_failure_reply_and_clear_w :
    handle_text_message envOverload stReg "u" "hi" =
      ({ stE1 with memory := stE1.memory.remove "u" },
       Reply.textMessage "⚠️ 模型過載，請稍後再試") := by
  have h := (anticipated_failure_reply_and_clear envOverload stReg stE1 "u" "hi"
    "That model is currently overloaded with other requests" rfl).1
  rw [h]
  decide

/-- C2 counterexample: an unregistered user's `/圖像` command gets the
prompt-to-register reply, but the history — empty before the event — holds
the prompt as a user turn afterwards, so the event did mutate the history,
contrary to the claim. -/
theorem unregistered_image_append_cex :
    (handle_text_message envBase initialState "u" "/圖像 cat").2 =
      Reply.textMessage "⚠️ 請先註冊 Token，格式為 /註冊 sk-xxxxx" ∧
    (handle_text_message envBase initialState "u" "/圖像 cat").1.memory.histOf "u" =
      [⟨"user", "cat"⟩] ∧
    initialState.memory.histOf "u" = [] := by
  decide

/-- C2 (amended): with no binding present, the default free-text path
replies with the prompt-to-register message and leaves the state exactly
unchanged, while the `/圖像` path replies with the same message but has
already appended the prompt as a user turn; the binding stays absent in
both cases. -/
theorem unregistered_binding_paths (env : Env) (st : BotState) (u raw : String)
    (hb : dictLookup st.modelManagement u = none) :
    (classifySource (pyStrip raw) = Command.freeText →
      handle_text_message env st u raw =
        (st, Reply.textMessage "⚠️ 請先註冊 Token，格式為 /註冊 sk-xxxxx")) ∧
    (classifySource (pyStrip raw) = Command.image →
      handle_text_message env st u raw =
        ({ st with memory := st.memory.append u "user" (pyStrip (pyDrop (pyStrip raw) 3)) },
         Reply.textMessage "⚠️ 請先註冊 Token，格式為 /註冊 sk-xxxxx")) := by
  constructor
  · intro hcls
    simp [handle_text_message, tryBody, hcls, defaultBranch, hb, exceptClauses]
  · intro hcls
    simp [handle_text_message, tryBody, hcls, imageBranch, hb, exceptClauses]

/-- Witness for C2 (amended) at a concrete free text and a concrete image
command from an unregistered user. -/
theorem unregistered_binding_paths_w :
    handle_text_message envBase initialState "u" "hello" =
      (initialState, Reply.textMessage "⚠️ 請先註冊 Token，格式為 /註冊 sk-xxxxx") ∧
    handle_text_message envBase initialState "u" "/圖像 cat" =
      ({ initialState with memory := initialState.memory.append "u" "user" "cat" },
       Reply.textMessage "⚠️ 請先註冊 Token，格式為 /註冊 sk-xxxxx") :=
  ⟨(unregistered_binding_paths envBase initialState "u" "hello" rfl).1 rfl,
   (unregistered_binding_paths envBase initialState "u" "/圖像 cat" rfl).2 rfl⟩

/-- C3 counterexample: a registered user sends a video URL whose transcript
fetch fails; the reply is the failure message, but the two history entries
that preceded the event are gone, contrary to the claim that they are
still present. -/
theorem extraction_failure_history_cex :
    (handle_text_message envYt stReg "u" "https://youtu.be/abc").2 =
      Reply.textMessage "⚠️ 發生錯誤：no transcript" ∧
    (handle_text_message envYt stReg "u" "https://youtu.be/abc").1.memory.histOf "u" =
      [] ∧
    stReg.memory.histOf "u" = [⟨"user", "x"⟩, ⟨"assistant", "y"⟩] := by
  decide

/-- C3 (amended): on a content-extraction failure — transcript fetch fails,
or the page yields zero chunks — the reply is the extraction-failure
message and the user's entire history is cleared, so a later `get` contains
no entry for the URL text and none of the entries that preceded the event
either. -/
theorem extraction_failure_reply_and_clear (env : Env) (st : BotState)
    (u raw url vid m : String) (resp : List String) (model : Model)
    (hcls : classifySource (pyStrip raw) = Command.freeText)
    (hb : dictLookup st.modelManagement u = some model)
    (hurl : env.getUrlFromText (pyStrip raw) = some url) :
    (env.retrieveVideoId (pyStrip raw) = some vid →
      env.getTranscriptChunks vid = ⟨false, resp, m⟩ →
      pyStartsWith m "Incorrect API key provided" = false →
      pyStartsWith m "That model is currently overloaded" = false →
      handle_text_message env st u raw =
        ({ st with memory := (st.memory.append u "user" (pyStrip raw)).remove u },
         Reply.textMessage ("⚠️ 發生錯誤：" ++ m))) ∧
    (env.retrieveVideoId (pyStrip raw) = none →
      env.getContentFromUrl url = [] →
      handle_text_message env st u raw =
        ({ st with memory := (st.memory.append u "user" (pyStrip raw)).remove u },
         Reply.textMessage "⚠️ 發生錯誤：無法撈取網站內容")) ∧
    ((st.memory.append u "user" (pyStrip raw)).remove u).histOf u = [] := by
  refine ⟨?_, ?_, histOf_remove _ _⟩
  · intro hvid htr hm1 hm2
    simp [handle_text_message, tryBody, hcls, defaultBranch, hb, hurl, hvid,
      htr, exceptClauses, hm1, hm2]
  · intro hvid hchunks
    simp [handle_text_message, tryBody, hcls, defaultBranch, hb, hurl, hvid,
      hchunks, exceptClauses,
      (by decide : pyStartsWith "無法撈取網站內容" "Incorrect API key provided" = false),
      (by decide : pyStartsWith "無法撈取網站內容" "That model is currently overloaded" = false)]

/-- Witness for C3 (amended) at a concrete failing transcript fetch. -/
theorem extraction_failure_reply_and_clear_w :
    handle_text_message envYt stReg "u" "https://youtu.be/abc" =
      ({ stY1 with memory := stY1.memory.remove "u" },
       Reply.textMessage "⚠️ 發生錯誤：no transcript") := by
  have h := (extraction_failure_reply_and_clear envYt stReg "u"
    "https://youtu.be/abc" "https://youtu.be/abc" "abc" "no transcript" []
    ⟨"sk-k"⟩ (by decide) (by decide) rfl).1 rfl rfl (by decide) (by decide)
  rw [h]
  decide

/-- C4 counterexample: an audio event hitting an unclassified chat failure
replies with the prefixed error, but the history — including the freshly
appended transcript turn — is retained, while the same failure on the text
path clears it; the audio path does not apply the history-clearing policy,
contrary to the claim. -/
theorem audio_failure_keeps_history_cex :
    (handle_audio_message envBoom stReg "u" "p.m4a").2 =
      Reply.textMessage "⚠️ boom" ∧
    (handle_audio_message envBoom stReg "u" "p.m4a").1.memory.histOf "u" =
      [⟨"user", "x"⟩, ⟨"assistant", "y"⟩, ⟨"user", "hello"⟩] ∧
    (handle_text_message envBoom stReg "u" "hi").1.memory.histOf "u" = [] := by
  decide

/-- C4 (amended): on an unclassified failure the text handler replies with
the generic error message and clears the user's entire history, while the
audio handler replies with the prefixed error text and leaves the state of
the raise point unchanged — it does not clear the history. -/
theorem unclassified_failure_policy (env : Env) (st st1 st2 : BotState)
    (u raw path m : String)
    (ht : tryBody env st u raw = Except.error (st1, PyExc.otherExc m))
    (hm1 : pyStartsWith m "Incorrect API key provided" = false)
    (hm2 : pyStartsWith m "That model is currently overloaded" = false)
    (ha : audioTryBody env st u path = Except.error (st2, PyExc.otherExc m)) :
    handle_text_message env st u raw =
      ({ st1 with memory := st1.memory.remove u },
       Reply.textMessage ("⚠️ 發生錯誤：" ++ m)) ∧
    ({ st1 with memory := st1.memory.remove u }).memory.histOf u = [] ∧
    handle_audio_message env st u path = (st2, Reply.textMessage ("⚠️ " ++ m)) := by
  refine ⟨?_, histOf_remove _ _, ?_⟩
  · simp [handle_text_message, ht, exceptClauses, hm1, hm2]
  · simp [handle_audio_message, ha, pyStr]

/-- Witness for C4 (amended) at a concrete unclassified chat failure on
both the text and the audio path. -/
theorem unclassified_failure_policy_w :
    handle_text_message envBoom stReg "u" "hi" =
      ({ stE1 with memory := stE1.memory.remove "u" },
       Reply.textMessage "⚠️ 發生錯誤：boom") ∧
    handle_audio_message envBoom stReg "u" "p.m4a" =
      (stA1, Reply.textMessage "⚠️ boom") := by
  have h := unclassified_failure_policy envBoom stReg stE1 stA1 "u" "hi"
    "p.m4a" "boom" rfl (by decide) (by decide) rfl
  exact ⟨by rw [h.1]; decide, by rw [h.2.2]; decide⟩

/-- C9: when a `/註冊` token validates but the credential-store save
raises, the new binding was installed before the save and remains
installed, the user receives the generic error reply, and the generic
failure handler clears the user's history. -/
theorem register_save_failure_keeps_binding (env : Env) (st : BotState)
    (u raw m : String)
    (hcls : classifySource (pyStrip raw) = Command.register)
    (hv : env.checkTokenValid (pyStrip (pyDrop (pyStrip raw) 3)) = true)
    (hs : env.saveResult u (pyStrip (pyDrop (pyStrip raw) 3)) = Except.error m)
    (hm1 : pyStartsWith m "Incorrect API key provided" = false)
    (hm2 : pyStartsWith m "That model is currently overloaded" = false) :
    handle_text_message env st u raw =
      ({ st with
          modelManagement := dictInsert st.modelManagement u ⟨pyStrip (pyDrop (pyStrip raw) 3)⟩,
          memory := st.memory.remove u },
       Reply.textMessage ("⚠️ 發生錯誤：" ++ m)) ∧
    dictLookup (handle_text_message env st u raw).1.modelManagement u =
      some ⟨pyStrip (pyDrop (pyStrip raw) 3)⟩ := by
  have hmain : handle_text_message env st u raw =
      ({ st with
          modelManagement := dictInsert st.modelManagement u ⟨pyStrip (pyDrop (pyStrip raw) 3)⟩,
          memory := st.memory.remove u },
       Reply.textMessage ("⚠️ 發生錯誤：" ++ m)) := by
    simp [handle_text_message, tryBody, hcls, registerBranch, hv, hs,
      exceptClauses, hm1, hm2]
  refine ⟨hmain, ?_⟩
  rw [hmain]
  simpa using dictLookup_insert_self st.modelManagement u
    ⟨pyStrip (pyDrop (pyStrip raw) 3)⟩

/-- Witness for C9 at a concrete failing save. -/
theorem register_save_failure_keeps_binding_w :
    handle_text_message envSaveFail initialState "u" "/註冊 sk-new" =
      ({ initialState with
          modelManagement := [("u", ⟨"sk-new"⟩)],
          memory := initialState.memory.remove "u" },
       Reply.textMessage "⚠️ 發生錯誤：boom-save") := by
  have h := (register_save_failure_keeps_binding envSaveFail initialState "u"
    "/註冊 sk-new" "boom-save" (by decide) (by decide) rfl (by decide)
    (by decide)).1
  rw [h]
  decide
